import Mathlib

/-!
Verification of the buildly-core permission model, invitation/reset token
handling and user-creation flow, embedded shallowly from the repository
sources (core/serializers.py, core/views/coreuser.py, workflow/models.py).
-/

/-! ## PermissionsField (core/serializers.py, lines 33-56)

A permission value is a 4-bit CRUD mask.  `to_representation` renders an
integer as a record of four booleans via the Python expression
`list('{0:04b}'.format(value if value < 16 else 15))`; for a negative value
the formatted string starts with a minus sign and `int('-')` raises
`ValueError`, which we model as `none`.  `to_internal_value` checks that the
key set of the incoming mapping is exactly {create, read, update, delete}
and re-packs the bits MSB-first (create=bit3, read=bit2, update=bit1,
delete=bit0). -/

structure Perms where
  create : Bool
  read : Bool
  update : Bool
  delete : Bool
deriving DecidableEq, Repr

/-- The `_keys` tuple of `PermissionsField`. -/
def permissionKeys : List String := ["create", "read", "update", "delete"]

/-- `PermissionsField.to_representation`: clamp values ≥ 16 to 15, format the
result as binary and read the bits MSB-first.  A negative value survives the
clamp test (`value < 16`) and then makes `int` choke on the sign character:
modelled as `none`. -/
def to_representation (value : Int) : Option Perms :=
  let v : Int := if value < 16 then value else 15
  if 0 ≤ v then
    let n : Nat := v.toNat
    some ⟨n / 8 % 2 == 1, n / 4 % 2 == 1, n / 2 % 2 == 1, n % 2 == 1⟩
  else
    none

/-- Python's `set(keys) == set(self._keys)` on the key list of the incoming
mapping. -/
def sameKeySet (ks : List String) : Bool :=
  permissionKeys.all (fun k => ks.contains k) && ks.all (fun k => permissionKeys.contains k)

/-- Dictionary access `data[key]` on the association-list model of the
incoming mapping (a Python dict has each key at most once). -/
def dictGet (data : List (String × Bool)) (k : String) : Bool :=
  (data.lookup k).getD false

/-- `PermissionsField.to_internal_value`: reject a mapping whose key set is
not exactly {create, read, update, delete}; otherwise join the bits in key
order and parse them base 2. -/
def to_internal_value (data : List (String × Bool)) : Except String Nat :=
  if sameKeySet (data.map Prod.fst) then
    Except.ok (8 * (cond (dictGet data "create") 1 0) +
               4 * (cond (dictGet data "read") 1 0) +
               2 * (cond (dictGet data "update") 1 0) +
               (cond (dictGet data "delete") 1 0))
  else
    Except.error "Permissions field: incorrect keys format"

/-- The JSON-object form of a `Perms` record, as fed back into
`to_internal_value` (exactly the four canonical keys). -/
def permsToDict (p : Perms) : List (String × Bool) :=
  [("create", p.create), ("read", p.read), ("update", p.update), ("delete", p.delete)]

/-! ### C1, C7, C8 -/

/-- C1: the permission encode and decode operations are mutually inverse:
decoding the integer produced by encoding any quadruple of booleans returns
that quadruple (all 16 combinations: encoding succeeds and decoding the
produced integer gives back the quadruple), and for every integer v in
[0,15], decoding succeeds and encoding the quadruple obtained by decoding v
returns v. -/
theorem C1_encode_decode_inverse :
    (∀ p : Perms,
        (to_internal_value (permsToDict p)).map (fun n => to_representation (Int.ofNat n)) =
          Except.ok (some p)) ∧
    (∀ v : Nat, v ≤ 15 →
        (to_representation (Int.ofNat v)).map (fun p => to_internal_value (permsToDict p)) =
          some (Except.ok v)) := by
  constructor
  · rintro ⟨c, r, u, d⟩
    cases c <;> cases r <;> cases u <;> cases d <;> rfl
  · intro v hv
    interval_cases v <;> rfl

/-- Witness for C1: concrete instantiation at v = 9. -/
theorem C1_encode_decode_inverse_witness :
    (to_representation (Int.ofNat 9)).map (fun p => to_internal_value (permsToDict p)) =
      some (Except.ok 9) :=
  C1_encode_decode_inverse.2 9 (by decide)

/-- C7 counterexample: -1 is outside [0,15], yet decoding -1 does not give
the result of decoding 15 (the code only clamps values ≥ 16; a negative
value makes the bit parse fail). -/
theorem C7_counterexample :
    ((-1 : Int) < 0 ∨ (-1 : Int) > 15) ∧
      to_representation (-1) ≠ to_representation 15 := by
  decide

/-- C7 amended: for every integer value greater than 15, decoding yields the
same result as decoding 15 (clamping); for every negative value decoding
instead fails (no clamping). -/
theorem C7_clamping_amended :
    (∀ v : Int, 15 < v → to_representation v = to_representation 15) ∧
    (∀ v : Int, v < 0 → to_representation v = none) := by
  constructor
  · intro v hv
    unfold to_representation
    have h1 : ¬ v < 16 := by omega
    simp [h1]
  · intro v hv
    unfold to_representation
    have h1 : v < 16 := by omega
    have h2 : ¬ (0 ≤ v) := by omega
    simp [h1, h2]

/-- Witness for C7 amended: concrete instantiations at v = 100 and v = -5. -/
theorem C7_clamping_amended_witness :
    to_representation 100 = to_representation 15 ∧ to_representation (-5) = none :=
  ⟨C7_clamping_amended.1 100 (by decide), C7_clamping_amended.2 (-5) (by decide)⟩

/-- C8: encoding fails with a ValidationError exactly when the mapping's key
set is not {create, read, update, delete}; with exactly that key set it
succeeds and produces an integer in [0,15]. -/
theorem C8_encode_key_check (data : List (String × Bool)) :
    (sameKeySet (data.map Prod.fst) = true →
      ∃ n : Nat, to_internal_value data = Except.ok n ∧ n ≤ 15) ∧
    (sameKeySet (data.map Prod.fst) = false →
      to_internal_value data = Except.error "Permissions field: incorrect keys format") := by
  constructor
  · intro h
    refine ⟨8 * (cond (dictGet data "create") 1 0) + 4 * (cond (dictGet data "read") 1 0) +
      2 * (cond (dictGet data "update") 1 0) + (cond (dictGet data "delete") 1 0), ?_, ?_⟩
    · simp [to_internal_value, h]
    · have hc : cond (dictGet data "create") 1 0 ≤ 1 := by cases dictGet data "create" <;> simp
      have hr : cond (dictGet data "read") 1 0 ≤ 1 := by cases dictGet data "read" <;> simp
      have hu : cond (dictGet data "update") 1 0 ≤ 1 := by cases dictGet data "update" <;> simp
      have hd : cond (dictGet data "delete") 1 0 ≤ 1 := by cases dictGet data "delete" <;> simp
      omega
  · intro h
    simp [to_internal_value, h]

/-- Witness for C8: a well-formed mapping encodes to an integer ≤ 15, and a
mapping with a wrong key set is rejected. -/
theorem C8_encode_key_check_witness :
    (∃ n : Nat,
      to_internal_value [("create", true), ("read", false), ("update", true), ("delete", false)] =
        Except.ok n ∧ n ≤ 15) ∧
    to_internal_value [("create", true)] =
      Except.error "Permissions field: incorrect keys format" :=
  ⟨(C8_encode_key_check _).1 (by decide), (C8_encode_key_check _).2 (by decide)⟩

/-! ## Invitation-token checking (core/views/coreuser.py, lines 130-163 and
362-392; core/serializers.py, lines 88-98)

`jwt.decode` is external (PyJWT): the views and the serializer only branch
on its outcome, so the embedding takes the decode outcome as input.  A
successful decode yields a claim set; each field is optional because the
handlers access `decoded['key']` directly, and a missing key raises an
uncaught `KeyError`. -/

/-- A decoded JWT claim set.  `org_uuid` is doubly optional: the outer level
is key presence, the inner level Python truthiness of the stored value
(`None` modelled as `none`; the empty string is also falsy and is handled
separately). -/
structure Claims where
  email : Option String := none
  org_uuid : Option (Option String) := none
  organization : Option String := none
  room_uuid : Option String := none
  event_uuid : Option String := none
deriving DecidableEq, Repr

/-- Outcome of `jwt.decode(value, settings.SECRET_KEY, algorithms='HS256')`:
either a claim set, or one of the two exceptions the handlers catch. -/
inductive DecodeResult where
  | ok (claims : Claims)
  | decodeError
  | expiredSignature
deriving DecidableEq, Repr

/-- A stored `CoreUser` row, restricted to the fields these flows read. -/
structure UserRec where
  email : String
  is_active : Bool
  pk : Nat
deriving DecidableEq, Repr

/-- A stored `Organization` row, restricted to the fields `invite_check`
reads. -/
structure OrgRec where
  organization_uuid : String
  name : String
deriving DecidableEq, Repr

/-- Observable outcome of `CoreUserViewSet.invite_check`. -/
inductive CheckOutcome where
  | noToken                                              -- 'No token is provided.'
  | invalidToken                                         -- 'Token is not valid.'
  | expiredToken                                         -- 'Token is expired.'
  | usedToken                                            -- 'Token has been used.'
  | keyErrorAt (k : String)                              -- uncaught KeyError
  | orgNotFound                                          -- uncaught Organization.DoesNotExist
  | success (email : String) (org : Option (String × String))
deriving DecidableEq, Repr

/-- `CoreUserViewSet.invite_check`: reject a missing token, dispatch on the
decode outcome, report an already-registered email as used, then resolve the
organization referenced by a truthy `org_uuid` claim. -/
def invite_check (token : Option String) (decode : String → DecodeResult)
    (users : List UserRec) (orgs : List OrgRec) : CheckOutcome :=
  match token with
  | none => .noToken
  | some t =>
    match decode t with
    | .decodeError => .invalidToken
    | .expiredSignature => .expiredToken
    | .ok claims =>
      match claims.email with
      | none => .keyErrorAt "email"
      | some em =>
        if users.any (fun u => u.email == em) then .usedToken
        else
          match claims.org_uuid with
          | none => .keyErrorAt "org_uuid"
          | some orgVal =>
            match orgVal with
            | none => .success em none
            | some ou =>
              if ou == "" then .success em none
              else
                match orgs.find? (fun o => o.organization_uuid == ou) with
                | none => .orgNotFound
                | some o => .success em (some (o.organization_uuid, o.name))

/-- Observable outcome of `CoreUserSerializer.validate_invitation_token`. -/
inductive ValidateOutcome where
  | valid
  | notValidError                  -- ValidationError 'Token is not valid.'
  | expiredError                   -- ValidationError 'Token is expired.'
  | keyErrorAt (k : String)        -- uncaught KeyError
deriving DecidableEq, Repr

/-- `CoreUserSerializer.validate_invitation_token`: decode the token; an
existing user for the claimed email, or a mismatch with the submitted email,
raises the same 'Token is not valid.' error that a decode failure raises. -/
def validate_invitation_token (decode : String → DecodeResult) (value : String)
    (initial_email : String) (users : List UserRec) : ValidateOutcome :=
  match decode value with
  | .decodeError => .notValidError
  | .expiredSignature => .expiredError
  | .ok claims =>
    match claims.email with
    | none => .keyErrorAt "email"
    | some em =>
      if users.any (fun u => u.email == em) || em != initial_email then .notValidError
      else .valid

/-- Observable outcome of `CoreUserViewSet.invite_event_check`. -/
inductive EventCheckOutcome where
  | noToken
  | invalidToken
  | expiredToken
  | keyErrorAt (k : String)
  | success (email organization room_uuid event_uuid : String)
deriving DecidableEq, Repr

/-- `CoreUserViewSet.invite_event_check`: reject a missing token, dispatch on
the decode outcome, then read the four claims directly. -/
def invite_event_check (token : Option String) (decode : String → DecodeResult) :
    EventCheckOutcome :=
  match token with
  | none => .noToken
  | some t =>
    match decode t with
    | .decodeError => .invalidToken
    | .expiredSignature => .expiredToken
    | .ok c =>
      match c.email with
      | none => .keyErrorAt "email"
      | some em =>
        match c.organization with
        | none => .keyErrorAt "organization"
        | some org =>
          match c.room_uuid with
          | none => .keyErrorAt "room_uuid"
          | some rm =>
            match c.event_uuid with
            | none => .keyErrorAt "event_uuid"
            | some ev => .success em org rm ev

/-! ### C2, C3 -/

/-- C2 counterexample: redeeming an invitation token (serializer validation
during signup) whose claimed email already maps to an existing user yields
the generic 'Token is not valid.' error — the very same outcome produced by
a signature failure — not a dedicated 'token already used' error. -/
theorem C2_counterexample :
    validate_invitation_token
        (fun _ => DecodeResult.ok { email := some "a@b.c", org_uuid := some none })
        "tok" "a@b.c" [⟨"a@b.c", true, 1⟩] = ValidateOutcome.notValidError ∧
    validate_invitation_token (fun _ => DecodeResult.decodeError)
        "tok" "a@b.c" [⟨"a@b.c", true, 1⟩] = ValidateOutcome.notValidError := by
  exact ⟨rfl, rfl⟩

/-- C2 amended: checking an invitation token (invite_check) whose claimed
email already maps to an existing user fails with the dedicated 'Token has
been used.' error, distinct from the expired and invalid-token errors;
redeeming such a token through the signup serializer also fails, but with
the generic 'Token is not valid.' error. -/
theorem C2_used_token_amended (decode : String → DecodeResult) (t : String)
    (claims : Claims) (em : String) (users : List UserRec) (orgs : List OrgRec)
    (hdec : decode t = DecodeResult.ok claims) (hem : claims.email = some em)
    (hex : users.any (fun u => u.email == em) = true) :
    invite_check (some t) decode users orgs = CheckOutcome.usedToken ∧
    CheckOutcome.usedToken ≠ CheckOutcome.invalidToken ∧
    CheckOutcome.usedToken ≠ CheckOutcome.expiredToken ∧
    validate_invitation_token decode t em users = ValidateOutcome.notValidError := by
  refine ⟨?_, by decide, by decide, ?_⟩
  · simp [invite_check, hdec, hem, hex]
  · simp [validate_invitation_token, hdec, hem, hex]

/-- Witness for C2 amended: a concrete decode outcome with an
already-registered email. -/
theorem C2_used_token_amended_witness :
    invite_check (some "tok")
        (fun _ => DecodeResult.ok { email := some "a@b.c", org_uuid := some none })
        [⟨"a@b.c", true, 1⟩] [] = CheckOutcome.usedToken ∧
    CheckOutcome.usedToken ≠ CheckOutcome.invalidToken ∧
    CheckOutcome.usedToken ≠ CheckOutcome.expiredToken ∧
    validate_invitation_token
        (fun _ => DecodeResult.ok { email := some "a@b.c", org_uuid := some none })
        "tok" "a@b.c" [⟨"a@b.c", true, 1⟩] = ValidateOutcome.notValidError :=
  C2_used_token_amended
    (fun _ => DecodeResult.ok { email := some "a@b.c", org_uuid := some none })
    "tok" { email := some "a@b.c", org_uuid := some none } "a@b.c"
    [⟨"a@b.c", true, 1⟩] [] rfl rfl (by decide)

/-- C3 counterexample: a token that decodes successfully but carries no
'email' claim makes invite_check fail with an uncaught KeyError — an
observable failure outcome that is none of the three token error kinds. -/
theorem C3_counterexample :
    invite_check (some "tok") (fun _ => DecodeResult.ok {}) [] [] =
      CheckOutcome.keyErrorAt "email" ∧
    CheckOutcome.keyErrorAt "email" ≠ CheckOutcome.invalidToken ∧
    CheckOutcome.keyErrorAt "email" ≠ CheckOutcome.expiredToken ∧
    CheckOutcome.keyErrorAt "email" ≠ CheckOutcome.usedToken := by
  refine ⟨rfl, by decide, by decide, by decide⟩

/-- C3 amended: both token-check endpoints reject an expired token with the
dedicated expired error and a token whose decode fails (bad signature or
malformed) with the dedicated invalid-token error; but a token that decodes
successfully while missing a required claim field raises an uncaught
KeyError, which is not one of the three token error kinds. -/
theorem C3_token_error_normalization_amended (decode : String → DecodeResult)
    (t : String) (users : List UserRec) (orgs : List OrgRec) :
    (decode t = DecodeResult.expiredSignature →
      invite_check (some t) decode users orgs = CheckOutcome.expiredToken ∧
      invite_event_check (some t) decode = EventCheckOutcome.expiredToken) ∧
    (decode t = DecodeResult.decodeError →
      invite_check (some t) decode users orgs = CheckOutcome.invalidToken ∧
      invite_event_check (some t) decode = EventCheckOutcome.invalidToken) ∧
    (∀ claims : Claims, decode t = DecodeResult.ok claims → claims.email = none →
      invite_check (some t) decode users orgs = CheckOutcome.keyErrorAt "email" ∧
      invite_event_check (some t) decode = EventCheckOutcome.keyErrorAt "email") := by
  refine ⟨fun h => ?_, fun h => ?_, fun claims h hem => ?_⟩
  · exact ⟨by simp [invite_check, h], by simp [invite_event_check, h]⟩
  · exact ⟨by simp [invite_check, h], by simp [invite_event_check, h]⟩
  · exact ⟨by simp [invite_check, h, hem], by simp [invite_event_check, h, hem]⟩

/-- Witness for C3 amended: concrete decode outcomes for the expired,
invalid and missing-claim cases. -/
theorem C3_token_error_normalization_amended_witness :
    (invite_check (some "tok") (fun _ => DecodeResult.expiredSignature) [] [] =
        CheckOutcome.expiredToken ∧
      invite_event_check (some "tok") (fun _ => DecodeResult.expiredSignature) =
        EventCheckOutcome.expiredToken) ∧
    (invite_check (some "tok") (fun _ => DecodeResult.decodeError) [] [] =
        CheckOutcome.invalidToken ∧
      invite_event_check (some "tok") (fun _ => DecodeResult.decodeError) =
        EventCheckOutcome.invalidToken) ∧
    (invite_check (some "tok") (fun _ => DecodeResult.ok {}) [] [] =
        CheckOutcome.keyErrorAt "email" ∧
      invite_event_check (some "tok") (fun _ => DecodeResult.ok {}) =
        EventCheckOutcome.keyErrorAt "email") :=
  ⟨(C3_token_error_normalization_amended (fun _ => DecodeResult.expiredSignature)
      "tok" [] []).1 rfl,
   (C3_token_error_normalization_amended (fun _ => DecodeResult.decodeError)
      "tok" [] []).2.1 rfl,
   (C3_token_error_normalization_amended (fun _ => DecodeResult.ok {})
      "tok" [] []).2.2 {} rfl rfl⟩

/-! ## Organization-admin check (src/workflow/models.py, lines 144-150)

`CoreUser.is_org_admin` tests whether the name `'OrgAdmin'`
(ROLE_ORGANIZATION_ADMIN) occurs among the user's auth-group names, caching
the answer on the instance (`_is_org_admin`).  The user record also carries
its CoreGroup memberships (permission mask and scope flags) so the spec's
claimed mask-based characterisation can be stated against the same model. -/

/-- `ROLE_ORGANIZATION_ADMIN` from workflow/models.py. -/
def ROLE_ORGANIZATION_ADMIN : String := "OrgAdmin"

/-- A CoreGroup membership as the spec describes it: a permission mask with
an organization/global scope attachment. -/
structure CoreGroupRec where
  permissions : Nat
  is_org_level : Bool
  is_global : Bool
  organization : Option String
deriving DecidableEq, Repr

/-- The slice of a workflow `CoreUser` instance that `is_org_admin` touches:
the auth-group names (`self.groups.values_list('name', flat=True)`), the
CoreGroup memberships, the user's organization and the `_is_org_admin`
instance cache. -/
structure WfUser where
  groups : List String
  core_groups : List CoreGroupRec
  organization : Option String
  cached_is_org_admin : Option Bool
deriving DecidableEq, Repr

/-- `CoreUser.is_org_admin`: return the cached answer when present,
otherwise test membership of 'OrgAdmin' among the auth-group names and cache
it.  Returns the boolean together with the (possibly updated) instance. -/
def is_org_admin (u : WfUser) : Bool × WfUser :=
  match u.cached_is_org_admin with
  | some b => (b, u)
  | none =>
    let b := u.groups.contains ROLE_ORGANIZATION_ADMIN
    (b, { u with cached_is_org_admin := some b })

/-- The organization-admin check as the spec words it (refinement
comparison): some CoreGroup membership carries the full mask 15 at
organization or global scope within the user's organization. -/
def specOrgAdminCheck (u : WfUser) : Bool :=
  u.core_groups.any (fun g =>
    g.permissions == 15 && (g.is_org_level || g.is_global) && g.organization == u.organization)

/-! ### C5 -/

/-- C5 counterexample: a user holding a CoreGroup with the full mask 15 at
organization scope within their organization, but no auth group named
'OrgAdmin': the spec-worded check says admin, the code says not. -/
theorem C5_counterexample :
    specOrgAdminCheck ⟨[], [⟨15, true, false, some "org1"⟩], some "org1", none⟩ = true ∧
    (is_org_admin ⟨[], [⟨15, true, false, some "org1"⟩], some "org1", none⟩).1 = false := by
  exact ⟨rfl, rfl⟩

/-- C5 amended: the organization-admin check returns true exactly when the
user's auth groups include one named 'OrgAdmin' (ROLE_ORGANIZATION_ADMIN) —
independently of CoreGroup permission masks — and the result is computed at
most once: a cached value is returned as is, and a second call after the
first recomputes nothing. -/
theorem C5_org_admin_amended (u : WfUser) :
    (u.cached_is_org_admin = none →
      (is_org_admin u).1 = u.groups.contains ROLE_ORGANIZATION_ADMIN) ∧
    (∀ b : Bool, u.cached_is_org_admin = some b → is_org_admin u = (b, u)) ∧
    is_org_admin (is_org_admin u).2 = ((is_org_admin u).1, (is_org_admin u).2) := by
  refine ⟨fun h => ?_, fun b h => ?_, ?_⟩
  · simp [is_org_admin, h]
  · simp [is_org_admin, h]
  · cases hc : u.cached_is_org_admin with
    | some b => simp [is_org_admin, hc]
    | none => simp [is_org_admin, hc]

/-- Witness for C5 amended: a concrete uncached admin user and a concrete
cached user. -/
theorem C5_org_admin_amended_witness :
    (is_org_admin ⟨["OrgAdmin"], [], some "o", none⟩).1 =
      (⟨["OrgAdmin"], [], some "o", none⟩ : WfUser).groups.contains ROLE_ORGANIZATION_ADMIN ∧
    is_org_admin ⟨[], [], some "o", some true⟩ = (true, ⟨[], [], some "o", some true⟩) ∧
    is_org_admin (is_org_admin ⟨["OrgAdmin"], [], some "o", none⟩).2 =
      ((is_org_admin ⟨["OrgAdmin"], [], some "o", none⟩).1,
        (is_org_admin ⟨["OrgAdmin"], [], some "o", none⟩).2) :=
  ⟨(C5_org_admin_amended ⟨["OrgAdmin"], [], some "o", none⟩).1 rfl,
   (C5_org_admin_amended ⟨[], [], some "o", some true⟩).2.1 true rfl,
   (C5_org_admin_amended ⟨["OrgAdmin"], [], some "o", none⟩).2.2⟩

/-! ## User creation (core/serializers.py, lines 119-162)

`CoreUserWritableSerializer.create` pops the organization name, runs
`Organization.objects.get_or_create`, creates the user with `is_active`
forced to True, and, when the organization is new, fetches the org-level
CoreGroup with the full permission mask and attaches it, followed by the
requested groups.  The org-admin group itself is created outside src/
(core/models.py reacts to Organization creation); that step is modelled
from the spec. -/

/-- `PERMISSIONS_ORG_ADMIN`.  Modelled from the spec: core/models.py, which
defines this constant, is not under src/; the spec fixes the org-admin mask
to the full mask 1111 = 15. -/
def PERMISSIONS_ORG_ADMIN : Nat := 15

/-- A stored CoreGroup row as the creation flow sees it. -/
structure SCoreGroup where
  gid : Nat
  organization : Option String
  is_org_level : Bool
  permissions : Nat
deriving DecidableEq, Repr

/-- A stored CoreUser row as the creation flow sees it. -/
structure SUser where
  email : String
  is_active : Bool
  organization : Option String
  core_groups : List Nat
  password : String
deriving DecidableEq, Repr

/-- The durable state the creation flow reads and writes: organizations
(keyed by name, as `get_or_create` is called with the name), CoreGroup rows
and a fresh-id counter. -/
structure AppState where
  orgs : List String
  groups : List SCoreGroup
  nextGid : Nat
deriving DecidableEq, Repr

/-- The validated input of `CoreUserWritableSerializer.create`.  The
`is_active` entry models a caller-supplied value, which the code overwrites
before creating the user. -/
structure ValidatedData where
  email : String
  password : String
  is_active : Option Bool
  organization_name : String
  core_groups : List Nat
deriving DecidableEq, Repr

/-- Modelled from the spec: creating an Organization also brings its
org-level admin CoreGroup with the full mask into existence (core/models.py,
which performs this on organization creation, is not under src/). -/
def createOrganization (s : AppState) (name : String) : AppState :=
  { orgs := s.orgs ++ [name],
    groups := s.groups ++ [⟨s.nextGid, some name, true, PERMISSIONS_ORG_ADMIN⟩],
    nextGid := s.nextGid + 1 }

/-- `Organization.objects.get_or_create(**organization)` keyed on the name:
returns the state, the organization name and whether it was newly created. -/
def get_or_create_org (s : AppState) (name : String) : AppState × String × Bool :=
  if s.orgs.contains name then (s, name, false)
  else (createOrganization s name, name, true)

/-- The filter of `CoreGroup.objects.get(organization=organization,
is_org_level=True, permissions=PERMISSIONS_ORG_ADMIN)`. -/
def orgAdminGroupQuery (orgName : String) (g : SCoreGroup) : Bool :=
  g.organization == some orgName && g.is_org_level && g.permissions == PERMISSIONS_ORG_ADMIN

/-- `CoreUserWritableSerializer.create`: get or create the organization,
create the user with `is_active` forced to True, attach the org-admin group
when the organization is new (a missing group row would raise DoesNotExist),
then attach the requested groups. -/
def serializer_create (s : AppState) (vd : ValidatedData) : Except String (AppState × SUser) :=
  match get_or_create_org s vd.organization_name with
  | (s1, orgName, is_new_org) =>
    let base : SUser :=
      { email := vd.email, is_active := true, organization := some orgName,
        core_groups := [], password := vd.password }
    if is_new_org then
      match s1.groups.find? (orgAdminGroupQuery orgName) with
      | none => Except.error "CoreGroup matching query does not exist."
      | some gadm =>
        Except.ok (s1, { base with core_groups := gadm.gid :: vd.core_groups })
    else
      Except.ok (s1, { base with core_groups := vd.core_groups })

/-! ### C4, C10 -/

/-- C4: self-registering with a fresh organization name assigns the user a
newly created organization of that name and attaches an org-level CoreGroup
carrying the full mask 15; with an existing organization name, this
operation attaches no admin group (only the requested groups). -/
theorem C4_new_org_admin_group (s : AppState) (vd : ValidatedData) :
    (s.orgs.contains vd.organization_name = false →
      ∃ s2 u, serializer_create s vd = Except.ok (s2, u) ∧
        u.organization = some vd.organization_name ∧
        s2.orgs.contains vd.organization_name = true ∧
        ∃ g ∈ s2.groups, g.permissions = PERMISSIONS_ORG_ADMIN ∧ g.is_org_level = true ∧
          g.organization = some vd.organization_name ∧ g.gid ∈ u.core_groups) ∧
    (s.orgs.contains vd.organization_name = true →
      ∃ s2 u, serializer_create s vd = Except.ok (s2, u) ∧
        u.core_groups = vd.core_groups) := by
  constructor
  · intro h
    have h' : vd.organization_name ∉ s.orgs := by simpa using h
    have hg : get_or_create_org s vd.organization_name =
        (createOrganization s vd.organization_name, vd.organization_name, true) := by
      simp [get_or_create_org, h']
    have hsome : (((createOrganization s vd.organization_name).groups.find?
        (orgAdminGroupQuery vd.organization_name))).isSome := by
      apply List.find?_isSome.mpr
      refine ⟨⟨s.nextGid, some vd.organization_name, true, PERMISSIONS_ORG_ADMIN⟩, ?_, ?_⟩
      · simp [createOrganization]
      · simp [orgAdminGroupQuery]
    obtain ⟨gadm, hfind⟩ := Option.isSome_iff_exists.mp hsome
    have hpg := List.find?_some hfind
    have hmem := List.mem_of_find?_eq_some hfind
    simp only [orgAdminGroupQuery, Bool.and_eq_true, beq_iff_eq] at hpg
    refine ⟨createOrganization s vd.organization_name,
      ⟨vd.email, true, some vd.organization_name, gadm.gid :: vd.core_groups, vd.password⟩,
      ?_, rfl, ?_, gadm, hmem, hpg.2, hpg.1.2, hpg.1.1, ?_⟩
    · simp only [serializer_create, hg, hfind, if_pos]
    · simp [createOrganization]
    · simp
  · intro h
    have h' : vd.organization_name ∈ s.orgs := by simpa using h
    have hg : get_or_create_org s vd.organization_name = (s, vd.organization_name, false) := by
      simp [get_or_create_org, h']
    refine ⟨s, ⟨vd.email, true, some vd.organization_name, vd.core_groups, vd.password⟩, ?_, rfl⟩
    simp only [serializer_create, hg, Bool.false_eq_true, if_false]

/-- Witness for C4: a fresh organization name on the empty state, and an
existing organization name. -/
theorem C4_new_org_admin_group_witness :
    (∃ s2 u, serializer_create ⟨[], [], 0⟩ ⟨"e@x.y", "pw", some false, "Acme", []⟩ =
        Except.ok (s2, u) ∧
      u.organization = some "Acme" ∧
      s2.orgs.contains "Acme" = true ∧
      ∃ g ∈ s2.groups, g.permissions = PERMISSIONS_ORG_ADMIN ∧ g.is_org_level = true ∧
        g.organization = some "Acme" ∧ g.gid ∈ u.core_groups) ∧
    (∃ s2 u, serializer_create ⟨["Acme"], [], 0⟩ ⟨"e@x.y", "pw", none, "Acme", [7]⟩ =
        Except.ok (s2, u) ∧ u.core_groups = [7]) :=
  ⟨(C4_new_org_admin_group ⟨[], [], 0⟩ ⟨"e@x.y", "pw", some false, "Acme", []⟩).1 (by decide),
   (C4_new_org_admin_group ⟨["Acme"], [], 0⟩ ⟨"e@x.y", "pw", none, "Acme", [7]⟩).2 (by decide)⟩

/-- C10: every user the creation flow stores has `is_active` true, whatever
`is_active` value was supplied in the input. -/
theorem C10_forced_is_active (s : AppState) (vd : ValidatedData) (s2 : AppState) (u : SUser)
    (h : serializer_create s vd = Except.ok (s2, u)) : u.is_active = true := by
  unfold serializer_create at h
  rcases hg : get_or_create_org s vd.organization_name with ⟨s1, nm, bnew⟩
  rw [hg] at h
  cases bnew with
  | false =>
    simp only [Bool.false_eq_true, if_false, Except.ok.injEq, Prod.mk.injEq] at h
    rw [← h.2]
  | true =>
    simp only [if_pos] at h
    cases hfind : s1.groups.find? (orgAdminGroupQuery nm) with
    | none => rw [hfind] at h; exact absurd h (by simp)
    | some gadm =>
      rw [hfind] at h
      simp only [Except.ok.injEq, Prod.mk.injEq] at h
      rw [← h.2]

/-- Witness for C10: creating a user who supplied `is_active = false` still
stores `is_active = true`. -/
theorem C10_forced_is_active_witness :
    (⟨"e@x.y", true, some "Acme", [0], "pw"⟩ : SUser).is_active = true :=
  C10_forced_is_active ⟨[], [], 0⟩ ⟨"e@x.y", "pw", some false, "Acme", []⟩
    ⟨["Acme"], [⟨0, some "Acme", true, PERMISSIONS_ORG_ADMIN⟩], 1⟩
    ⟨"e@x.y", true, some "Acme", [0], "pw"⟩ rfl

/-! ## Password-reset request fan-out (core/serializers.py, lines 228-266)

`CoreUserResetPasswordSerializer.save` iterates over the active users with
the requested email, mints a reset token for each, sends each a
notification and accumulates the dispatch count.  The token generator and
the mail senders live outside src/ and are modelled from the spec. -/

/-- Modelled from the spec: `default_token_generator.make_token` (Django,
external Signer) mints a reset token bound to the individual user row. -/
def make_token (u : UserRec) : String := "reset-" ++ toString u.pk

/-- Modelled from the spec: the Notifier send operation returns a success
count; one successful dispatch counts 1 (core/email_utils.py is not under
src/). -/
def send_email_count : Nat := 1

/-- `CoreUserResetPasswordSerializer.save`: loop over
`CoreUser.objects.filter(email=email, is_active=True)`, mint a token and
send a notification per user, summing the dispatch counts.  Returns the
count together with the tokens minted along the way. -/
def reset_password_save (email : String) (users : List UserRec) : Nat × List String :=
  (users.filter (fun u => u.email == email && u.is_active)).foldl
    (fun acc u => (acc.1 + send_email_count, acc.2 ++ [make_token u])) (0, [])

/-! ### C6 -/

/-- C6: the password-reset request returns the number of active user rows
carrying the email — each of which gets its own minted token — and is total:
an email matching two active users returns 2, an email matching none
returns 0, never an error. -/
theorem C6_reset_password_fanout (email : String) (users : List UserRec) :
    (reset_password_save email users).1 =
      (users.filter (fun u => u.email == email && u.is_active)).length ∧
    (reset_password_save email users).2 =
      (users.filter (fun u => u.email == email && u.is_active)).map make_token := by
  have key : ∀ (l : List UserRec) (c : Nat) (ts : List String),
      l.foldl (fun acc u => (acc.1 + send_email_count, acc.2 ++ [make_token u])) (c, ts) =
        (c + l.length, ts ++ l.map make_token) := by
    intro l
    induction l with
    | nil => intro c ts; simp
    | cons x xs ih =>
      intro c ts
      rw [List.foldl_cons]
      dsimp only
      rw [ih]
      refine Prod.ext ?_ ?_
      · simp [send_email_count]; omega
      · simp
  unfold reset_password_save
  rw [key]
  simp

/-! ## Invitation request (core/serializers.py, lines 211-213;
core/views/coreuser.py, lines 104-203)

`CoreUserInvitationSerializer` bounds the email list to between 1 and 10
entries; `invite` validates with `raise_exception=True` before
`perform_invite` mints any token or sends any mail. -/

/-- `CoreUserInvitationSerializer`: `emails` is a list field with
`min_length=1, max_length=10`. -/
def validate_invitation_emails (emails : List String) : Bool :=
  1 ≤ emails.length && emails.length ≤ 10

/-- Modelled from the spec: `create_invitation_token` (core/jwt_utils.py,
not under src/) signs a claim set binding the email address and the
inviting admin's organization. -/
def create_invitation_token (email : String) (org : Option String) : String :=
  "invite-" ++ email ++ "-" ++ org.getD ""

/-- `CoreUserViewSet.perform_invite`: skip already-registered addresses; for
each remaining address mint a token, build the registration link and send
the invitation mail.  Returns the links and the addresses notified. -/
def perform_invite (emails : List String) (users : List UserRec) (org : Option String) :
    List String × List String :=
  let registered := users.map (fun u => u.email)
  let targets := emails.filter (fun e => !registered.contains e)
  (targets.map (fun e => "register?token=" ++ create_invitation_token e org), targets)

/-- `CoreUserViewSet.invite`: validate the request body
(`raise_exception=True`), then perform the invitations.  Returns the
response together with the list of addresses a mail was sent to. -/
def invite (emails : List String) (users : List UserRec) (org : Option String) :
    Except String (List String) × List String :=
  if validate_invitation_emails emails then
    ((Except.ok (perform_invite emails users org).1), (perform_invite emails users org).2)
  else
    (Except.error "validation error", [])

/-! ### C9 -/

/-- C9: the invite operation accepts only between 1 and 10 email addresses:
an empty list or one with more than 10 entries fails validation, and then no
invitation link is produced and no notification is sent; a list within
bounds is accepted. -/
theorem C9_invite_email_bounds (emails : List String) (users : List UserRec)
    (org : Option String) :
    (emails.length = 0 ∨ 10 < emails.length →
      invite emails users org = (Except.error "validation error", [])) ∧
    (1 ≤ emails.length → emails.length ≤ 10 →
      invite emails users org =
        (Except.ok (perform_invite emails users org).1, (perform_invite emails users org).2)) := by
  constructor
  · intro h
    have hv : validate_invitation_emails emails = false := by
      rcases h with h | h <;> (simp [validate_invitation_emails]; omega)
    simp [invite, hv]
  · intro h1 h2
    have hv : validate_invitation_emails emails = true := by
      simp [validate_invitation_emails]
      omega
    simp [invite, hv]

/-- Witness for C9: the empty list is rejected with nothing sent; a
single-address list is accepted. -/
theorem C9_invite_email_bounds_witness :
    invite [] [] none = (Except.error "validation error", []) ∧
    invite ["a@b.c"] [] none =
      (Except.ok (perform_invite ["a@b.c"] [] none).1, (perform_invite ["a@b.c"] [] none).2) :=
  ⟨(C9_invite_email_bounds [] [] none).1 (Or.inl rfl),
   (C9_invite_email_bounds ["a@b.c"] [] none).2 (by decide) (by decide)⟩
